import Mathlib

/-!
# Verification of the RC channel classification / auxiliary-function dispatch layer

Shallow embedding of `libraries/RC_Channel/RC_Channel.cpp`: the debounced
discrete-position classifier, the 3-position and 6-position band derivations,
the auxiliary-function dispatcher (`read_aux`, `run_aux_function`,
`do_aux_function`), the override arbiter (`set_override` / `has_override`),
the PWM-to-control-value conversions (`pwm_to_range_dz`,
`pwm_to_angle_dz_trim`) and the duplicate-option scan
(`RC_Channels::duplicate_options_exist`).

Machine integers are modelled as `Nat` / `Int` with explicit wrapping
(`% 2^32` for `uint32_t` time arithmetic, a `toInt16` wrap for `int16_t`
conversions).  The `float` results of the conversions are modelled in exact
rational arithmetic `ℚ`; on the values appearing here every intermediate is
exactly representable in single precision, and a quotient of nonzero finite
values is zero in `ℚ` exactly when it is zero in `float`.  External
subsystems reached by dispatch handlers (arming, camera, relays, ...) are
out of scope of the excerpt; what the claims need from them (the boolean
results of the camera handlers) is passed in as explicit parameters.
-/

namespace RCChannel

/-- Three-position auxiliary switch position (`RC_Channel::AuxSwitchPos`,
values LOW, MIDDLE, HIGH). -/
inductive AuxSwitchPos
  | LOW
  | MIDDLE
  | HIGH
deriving DecidableEq, Repr

/-- The `(int8_t)` cast of an `AuxSwitchPos` value used by `read_aux`
(`LOW = 0`, `MIDDLE = 1`, `HIGH = 2`). -/
def AuxSwitchPos.toInt8 : AuxSwitchPos → Int
  | .LOW => 0
  | .MIDDLE => 1
  | .HIGH => 2

/-- Auxiliary function ids (`RC_Channel::AUX_FUNC`).  The constructors are the
ids this excerpt mentions: every `case` label of `do_aux_function` plus
`DO_NOTHING`, `VTX_POWER`, `ARMDISARM_AIRMODE` and `PARACHUTE_RELEASE`
(which appear in `read_aux` / `init_position_on_first_radio_read` but have no
dispatch case in this translation unit).  The enumeration in the full
firmware has further members (vehicle-specific ids handled by subclasses);
those are represented by `other n`. -/
inductive AUX_FUNC
  | DO_NOTHING
  | FENCE
  | GRIPPER
  | RC_OVERRIDE_ENABLE
  | AVOID_PROXIMITY
  | RELAY
  | RELAY2
  | RELAY3
  | RELAY4
  | RELAY5
  | RELAY6
  | RUNCAM_CONTROL
  | RUNCAM_OSD_CONTROL
  | CLEAR_WP
  | MISSION_RESET
  | AVOID_ADSB
  | FFT_NOTCH_TUNE
  | GENERATOR
  | BATTERY_MPPT_ENABLE
  | SPRAYER
  | LOST_VEHICLE_SOUND
  | ARMDISARM
  | ARMDISARM_AIRMODE
  | DISARM
  | COMPASS_LEARN
  | LANDING_GEAR
  | GPS_DISABLE
  | GPS_DISABLE_YAW
  | DISABLE_AIRSPEED_USE
  | MOTOR_ESTOP
  | VISODOM_ALIGN
  | EKF_SOURCE_SET
  | OPTFLOW_CAL
  | KILL_IMU1
  | KILL_IMU2
  | KILL_IMU3
  | CAMERA_TRIGGER
  | CAM_MODE_TOGGLE
  | CAMERA_REC_VIDEO
  | CAMERA_ZOOM
  | CAMERA_MANUAL_FOCUS
  | CAMERA_AUTO_FOCUS
  | CAMERA_IMAGE_TRACKING
  | CAMERA_LENS
  | RETRACT_MOUNT1
  | RETRACT_MOUNT2
  | MOUNT_LOCK
  | MOUNT_LRF_ENABLE
  | LOG_PAUSE
  | MAG_CAL
  | ARM_EMERGENCY_STOP
  | EKF_LANE_SWITCH
  | EKF_YAW_RESET
  | AHRS_TYPE
  | TORQEEDO_CLEAR_ERR
  | STOP_RESTART_SCRIPTING
  | MOUNT1_ROLL
  | MOUNT1_PITCH
  | MOUNT1_YAW
  | MOUNT2_ROLL
  | MOUNT2_PITCH
  | MOUNT2_YAW
  | SCRIPTING_1
  | SCRIPTING_2
  | SCRIPTING_3
  | SCRIPTING_4
  | SCRIPTING_5
  | SCRIPTING_6
  | SCRIPTING_7
  | SCRIPTING_8
  | SCRIPTING_9
  | SCRIPTING_10
  | SCRIPTING_11
  | SCRIPTING_12
  | SCRIPTING_13
  | SCRIPTING_14
  | SCRIPTING_15
  | SCRIPTING_16
  | LOWEHEISER_THROTTLE
  | LOWEHEISER_STARTER
  | PARACHUTE_RELEASE
  | VTX_POWER
  | other (n : Nat)

/-- Per-channel switch debounce state (`RC_Channel::switch_state`).
Positions are `int8_t`; `-1` means unset (the spec's data model:
"`current_position` (last latched discrete position, −1 = unset)", and
`reset_mode_switch` resets both positions to `-1`). -/
structure SwitchState where
  current_position : Int
  debounce_position : Int
  last_edge_time_ms : Nat
  initialised : Bool
deriving DecidableEq, Repr

/-- Constant `SWITCH_DEBOUNCE_TIME_MS` (RC_Channel.cpp line 64). -/
def SWITCH_DEBOUNCE_TIME_MS : Nat := 200

/-- Unsigned `uint32_t` subtraction `a - b` (wraps modulo `2^32`), as used for the
millisecond time differences `tnow_ms - last_edge_time_ms` and
`AP_HAL::millis() - last_override_time`. -/
def u32_sub (a b : Nat) : Nat :=
  (a % 2 ^ 32 + (2 ^ 32 - b % 2 ^ 32)) % 2 ^ 32

/-- Conversion of an integer to `int16_t` (two's-complement wrap, i.e.
reduction modulo 2^16 = 65536 into [-32768, 32768)), used where the source
converts a wider expression to `int16_t`. -/
def toInt16 (n : Int) : Int :=
  (n + 32768) % 65536 - 32768

/-- Method `RC_Channel::debounce_completed(int8_t position)` (RC_Channel.cpp
625-647).  The current wall-clock time `AP_HAL::millis()` is passed
explicitly as `tnow_ms`; the member `switch_state` is passed and returned
explicitly.  Returns the updated state and the `bool` result. -/
def debounce_completed (position : Int) (tnow_ms : Nat) (s : SwitchState) :
    SwitchState × Bool :=
  -- switch change not detected
  if s.current_position = position then
    -- reset debouncing
    ({ s with debounce_position := position }, false)
  else
    -- switch change detected
    -- position not established yet
    if s.debounce_position ≠ position then
      ({ s with debounce_position := position, last_edge_time_ms := tnow_ms }, false)
    else if u32_sub tnow_ms s.last_edge_time_ms ≥ SWITCH_DEBOUNCE_TIME_MS then
      -- position established; debounce completed
      ({ s with current_position := position }, true)
    else
      (s, false)

/-- Modelled from the spec: the global configuration consulted by this layer.
The numeric constants (`RC_MIN_LIMIT_PWM`, `RC_MAX_LIMIT_PWM`,
`AUX_SWITCH_PWM_TRIGGER_LOW`, `AUX_SWITCH_PWM_TRIGGER_HIGH`) are declared in
`RC_Channel.h`, which is outside the excerpt; the spec treats them as
tunable constants ("two threshold constants (low ≈1200 µs, high ≈1800 µs)",
"a sanity window (≤ some low limit or ≥ some high limit)"), so they are kept
abstract here.  The remaining fields model the `RC_Channels` singleton
state read through `rc()`: `option_is_enabled(ALLOW_SWITCH_REV)`,
`gcs_overrides_enabled()` and `get_override_timeout_ms(t)` (`none` models
the call returning `false`, i.e. timeouts globally disabled). -/
structure Globals where
  rc_min_limit_pwm : Nat
  rc_max_limit_pwm : Nat
  aux_switch_pwm_trigger_low : Nat
  aux_switch_pwm_trigger_high : Nat
  allow_switch_rev : Bool
  gcs_overrides_enabled : Bool
  override_timeout_ms : Option Nat

/-- The boolean results returned by the camera-subsystem handlers
(`do_aux_function_record_video` and friends).  Those handlers live in the
camera library, outside the excerpt; `do_aux_function` forwards their result
(`return do_aux_function_record_video(ch_flag);` etc.), so they are passed
in as opaque boolean functions of the switch position. -/
structure ExternalResults where
  record_video : AuxSwitchPos → Bool
  camera_zoom : AuxSwitchPos → Bool
  camera_manual_focus : AuxSwitchPos → Bool
  camera_auto_focus : AuxSwitchPos → Bool
  camera_image_tracking : AuxSwitchPos → Bool
  camera_lens : AuxSwitchPos → Bool

/-- One RC channel (`class RC_Channel`): the calibration parameters
(`AP_Int16` fields `radio_min`, `radio_trim`, `radio_max`, `reversed`,
`dead_zone`), the RANGE/ANGLE scale `high_in` (`uint16_t`), the latest raw
pulse width `radio_in` (`uint16_t`), the configured auxiliary function
`option`, the override pair and the switch debounce state. -/
structure RC_Channel where
  ch_in : Nat
  radio_min : Int
  radio_trim : Int
  radio_max : Int
  reversed : Bool
  dead_zone : Nat
  high_in : Nat
  radio_in : Nat
  option : AUX_FUNC
  override_value : Nat
  last_override_time : Nat
  switch_state : SwitchState

/-- Trigger source (`RC_Channel::AuxFuncTrigger::Source`): per the spec,
"RC switch motion, startup initialization, or a non-RC caller such as a
scripting engine". -/
inductive AuxFuncSource
  | INIT
  | RC
  | SCRIPTING
deriving DecidableEq, Repr

/-- Record `RC_Channel::AuxFuncTrigger`: one dispatch event. -/
structure AuxFuncTrigger where
  func : AUX_FUNC
  pos : AuxSwitchPos
  source : AuxFuncSource
  source_index : Nat

/-- The externally visible invocation made by `read_aux` this cycle: either
`run_aux_function` with a function id and a debounced 3-position reading, or
`AP::vtx().change_power(position)` on the 6-position `VTX_POWER` path. -/
inductive AuxInvocation
  | runAux (f : AUX_FUNC) (pos : AuxSwitchPos)
  | vtxChangePower (pos : Int)

/-- Clamp `constrain_int16` (AP_Math, outside the excerpt).  Modelled from the
spec: "clamp `radio_in` to [`radio_min`, `radio_max`]"; if the value is
below the lower bound return the lower bound, above the upper bound the
upper bound, else the value itself. -/
def constrain_int16 (amt low high : Int) : Int :=
  if amt < low then low
  else if amt > high then high
  else amt

/-- The 6-band threshold chain of `RC_Channel::read_6pos_switch`
(RC_Channel.cpp 595-607): the position computed for an in-window pulse
width. -/
def six_band (pulsewidth : Nat) : Int :=
  if pulsewidth < 1231 then 0
  else if pulsewidth < 1361 then 1
  else if pulsewidth < 1491 then 2
  else if pulsewidth < 1621 then 3
  else if pulsewidth < 1750 then 4
  else 5

/-- Method `RC_Channel::read_6pos_switch(int8_t &position)` (RC_Channel.cpp
587-614).  Returns the updated channel and `some position` when the
function returns `true`, `none` when it returns `false` (both for an
out-of-window pulse width, which touches no state, and for an incomplete
debounce, which only updates the debounce state). -/
def read_6pos_switch (g : Globals) (tnow : Nat) (c : RC_Channel) :
    RC_Channel × Option Int :=
  let pulsewidth := c.radio_in
  if pulsewidth ≤ g.rc_min_limit_pwm ∨ pulsewidth ≥ g.rc_max_limit_pwm then
    (c, none)  -- This is an error condition
  else
    let position := six_band pulsewidth
    let db := debounce_completed position tnow c.switch_state
    let c' := { c with switch_state := db.1 }
    if db.2 then (c', some position) else (c', none)

/-- Method `RC_Channel::read_3pos_switch(AuxSwitchPos &ret)` (RC_Channel.cpp
1976-1994): `none` when the pulse width is outside the sanity window,
otherwise the LOW/MIDDLE/HIGH classification, with LOW and HIGH swapped when
the channel is reversed and switch reversal is globally allowed. -/
def read_3pos_switch (g : Globals) (c : RC_Channel) : Option AuxSwitchPos :=
  let pw := c.radio_in
  if pw ≤ g.rc_min_limit_pwm ∨ pw ≥ g.rc_max_limit_pwm then
    none
  else
    let switch_reversed := c.reversed && g.allow_switch_rev
    if pw < g.aux_switch_pwm_trigger_low then
      some (if switch_reversed then .HIGH else .LOW)
    else if pw > g.aux_switch_pwm_trigger_high then
      some (if switch_reversed then .LOW else .HIGH)
    else
      some .MIDDLE

/-- Method `RC_Channel::init_position_on_first_radio_read(AUX_FUNC func)`
(RC_Channel.cpp 1018-1035): true exactly for the deferred-initial-action
set. -/
def init_position_on_first_radio_read : AUX_FUNC → Bool
  | .ARMDISARM_AIRMODE => true
  | .ARMDISARM => true
  | .ARM_EMERGENCY_STOP => true
  | .PARACHUTE_RELEASE => true
  | _ => false

/-- Method `RC_Channel::do_aux_function(const AuxFuncTrigger &trigger)`
(RC_Channel.cpp 1478-1963).  Each recognized case invokes a handler on an
external subsystem (named in the comment on the arm) and falls through to
`return true`; no handler reads or writes any field of the channel, so the
channel is returned unchanged.  The camera cases return the camera
handler's own boolean result (`return do_aux_function_record_video(...)`
etc.), supplied through `ext`.  The `default` case sends
"Invalid channel option" to the GCS and returns `false`. -/
def do_aux_function (trigger : AuxFuncTrigger) (ext : ExternalResults)
    (c : RC_Channel) : RC_Channel × Bool :=
  let ch_flag := trigger.pos
  match trigger.func with
  | .FENCE => (c, true)                 -- do_aux_function_fence
  | .GRIPPER => (c, true)               -- do_aux_function_gripper
  | .RC_OVERRIDE_ENABLE => (c, true)    -- do_aux_function_rc_override_enable
  | .AVOID_PROXIMITY => (c, true)       -- do_aux_function_avoid_proximity
  | .RELAY => (c, true)                 -- do_aux_function_relay(0, ...)
  | .RELAY2 => (c, true)                -- do_aux_function_relay(1, ...)
  | .RELAY3 => (c, true)                -- do_aux_function_relay(2, ...)
  | .RELAY4 => (c, true)                -- do_aux_function_relay(3, ...)
  | .RELAY5 => (c, true)                -- do_aux_function_relay(4, ...)
  | .RELAY6 => (c, true)                -- do_aux_function_relay(5, ...)
  | .RUNCAM_CONTROL => (c, true)        -- do_aux_function_runcam_control
  | .RUNCAM_OSD_CONTROL => (c, true)    -- do_aux_function_runcam_osd_control
  | .CLEAR_WP => (c, true)              -- do_aux_function_clear_wp
  | .MISSION_RESET => (c, true)         -- do_aux_function_mission_reset
  | .AVOID_ADSB => (c, true)            -- do_aux_function_avoid_adsb
  | .FFT_NOTCH_TUNE => (c, true)        -- do_aux_function_fft_notch_tune
  | .GENERATOR => (c, true)             -- do_aux_function_generator
  | .BATTERY_MPPT_ENABLE => (c, true)   -- AP::battery().MPPT_set_powered_state_to_all
  | .SPRAYER => (c, true)               -- do_aux_function_sprayer
  | .LOST_VEHICLE_SOUND => (c, true)    -- do_aux_function_lost_vehicle_sound
  | .ARMDISARM => (c, true)             -- do_aux_function_armdisarm
  | .DISARM => (c, true)                -- AP::arming().disarm on HIGH
  | .COMPASS_LEARN => (c, true)         -- compass.set_learn_type on HIGH
  | .LANDING_GEAR => (c, true)          -- lg->set_position
  | .GPS_DISABLE => (c, true)           -- AP::gps().force_disable
  | .GPS_DISABLE_YAW => (c, true)       -- AP::gps().set_force_disable_yaw
  | .DISABLE_AIRSPEED_USE => (c, true)  -- airspeed->force_disable_use
  | .MOTOR_ESTOP => (c, true)           -- SRV_Channels::set_emergency_stop
  | .VISODOM_ALIGN => (c, true)         -- visual_odom->request_align_yaw_to_ahrs
  | .EKF_SOURCE_SET => (c, true)        -- AP::ahrs().set_posvelyaw_source_set
  | .OPTFLOW_CAL => (c, true)           -- optflow->start/stop_calibration
  | .KILL_IMU1 => (c, true)             -- AP::ins().kill_imu(0, ...)
  | .KILL_IMU2 => (c, true)             -- AP::ins().kill_imu(1, ...)
  | .KILL_IMU3 => (c, true)             -- AP::ins().kill_imu(2, ...)
  | .CAMERA_TRIGGER => (c, true)        -- do_aux_function_camera_trigger
  | .CAM_MODE_TOGGLE => (c, true)       -- camera->cam_mode_toggle on HIGH
  | .CAMERA_REC_VIDEO => (c, ext.record_video ch_flag)
  | .CAMERA_ZOOM => (c, ext.camera_zoom ch_flag)
  | .CAMERA_MANUAL_FOCUS => (c, ext.camera_manual_focus ch_flag)
  | .CAMERA_AUTO_FOCUS => (c, ext.camera_auto_focus ch_flag)
  | .CAMERA_IMAGE_TRACKING => (c, ext.camera_image_tracking ch_flag)
  | .CAMERA_LENS => (c, ext.camera_lens ch_flag)
  | .RETRACT_MOUNT1 => (c, true)        -- do_aux_function_retract_mount(..., 0)
  | .RETRACT_MOUNT2 => (c, true)        -- do_aux_function_retract_mount(..., 1)
  | .MOUNT_LOCK => (c, true)            -- mount->set_yaw_lock
  | .MOUNT_LRF_ENABLE => (c, true)      -- mount->set_rangefinder_enable
  | .LOG_PAUSE => (c, true)             -- logger->log_pause
  | .MAG_CAL => (c, true)               -- compass calibration start/cancel
  | .ARM_EMERGENCY_STOP => (c, true)    -- set_emergency_stop / arm
  | .EKF_LANE_SWITCH => (c, true)       -- AP::ahrs().check_lane_switch
  | .EKF_YAW_RESET => (c, true)         -- AP::ahrs().request_yaw_reset
  | .AHRS_TYPE => (c, true)             -- AP::ahrs().set_ekf_type
  | .TORQEEDO_CLEAR_ERR => (c, true)    -- torqeedo->clear_motor_error on HIGH
  | .STOP_RESTART_SCRIPTING => (c, true)  -- scr->stop / restart_all
  -- do nothing for these functions
  | .MOUNT1_ROLL => (c, true)
  | .MOUNT1_PITCH => (c, true)
  | .MOUNT1_YAW => (c, true)
  | .MOUNT2_ROLL => (c, true)
  | .MOUNT2_PITCH => (c, true)
  | .MOUNT2_YAW => (c, true)
  | .SCRIPTING_1 => (c, true)
  | .SCRIPTING_2 => (c, true)
  | .SCRIPTING_3 => (c, true)
  | .SCRIPTING_4 => (c, true)
  | .SCRIPTING_5 => (c, true)
  | .SCRIPTING_6 => (c, true)
  | .SCRIPTING_7 => (c, true)
  | .SCRIPTING_8 => (c, true)
  | .SCRIPTING_9 => (c, true)
  | .SCRIPTING_10 => (c, true)
  | .SCRIPTING_11 => (c, true)
  | .SCRIPTING_12 => (c, true)
  | .SCRIPTING_13 => (c, true)
  | .SCRIPTING_14 => (c, true)
  | .SCRIPTING_15 => (c, true)
  | .SCRIPTING_16 => (c, true)
  -- monitored by the library itself
  | .LOWEHEISER_THROTTLE => (c, true)
  | .LOWEHEISER_STARTER => (c, true)
  -- default: "Invalid channel option (%u)"
  | .DO_NOTHING => (c, false)
  | .ARMDISARM_AIRMODE => (c, false)
  | .PARACHUTE_RELEASE => (c, false)
  | .VTX_POWER => (c, false)
  | .other _ => (c, false)

/-- Method `RC_Channel::run_aux_function` (RC_Channel.cpp 1433-1476): builds the
`AuxFuncTrigger`, calls `do_aux_function` and returns its result.  The
scripting cache update and the AUXF log write are calls on external
subsystems and carry no channel state. -/
def run_aux_function (ext : ExternalResults) (ch_option : AUX_FUNC)
    (pos : AuxSwitchPos) (source : AuxFuncSource) (source_index : Nat)
    (c : RC_Channel) : RC_Channel × Bool :=
  let trigger : AuxFuncTrigger :=
    { func := ch_option, pos := pos, source := source, source_index := source_index }
  do_aux_function trigger ext c

/-- The 3-position-switch path of `RC_Channel::read_aux()` (RC_Channel.cpp
982-1010), taken for every option other than `DO_NOTHING` and `VTX_POWER`:
classify, initialise the latched position on the very first successful read
(without running the function when the option is in the deferred set),
debounce, and on a confirmed change run the auxiliary function. -/
def read_aux_3pos_path (g : Globals) (ext : ExternalResults) (tnow : Nat)
    (c : RC_Channel) : RC_Channel × Option AuxInvocation × Bool :=
  match read_3pos_switch g c with
  | none => (c, none, false)
  | some new_position =>
    let c1 :=
      if ¬c.switch_state.initialised then
        let ss := { c.switch_state with initialised := true }
        let ss :=
          if init_position_on_first_radio_read c.option then
            { ss with current_position := new_position.toInt8,
                      debounce_position := new_position.toInt8 }
          else ss
        { c with switch_state := ss }
      else c
    let db := debounce_completed new_position.toInt8 tnow c1.switch_state
    let c2 := { c1 with switch_state := db.1 }
    if ¬db.2 then (c2, none, false)
    else
      -- debounced; undertake the action:
      let r := run_aux_function ext c2.option new_position .RC c2.ch_in c2
      (r.1, some (.runAux c2.option new_position), true)

/-- Method `RC_Channel::read_aux()` (RC_Channel.cpp 964-1010).  Returns the updated
channel, the external invocation made this cycle (if any), and the `bool`
result ("true if a switch has changed"). -/
def read_aux (g : Globals) (ext : ExternalResults) (tnow : Nat)
    (c : RC_Channel) : RC_Channel × Option AuxInvocation × Bool :=
  match c.option with
  | .DO_NOTHING =>
    -- may wish to add special cases for other "AUXSW" things here
    (c, none, false)
  | .VTX_POWER =>
    match read_6pos_switch g tnow c with
    | (c', some position) => (c', some (.vtxChangePower position), true)
    | (c', none) => (c', none, false)
  | _ => read_aux_3pos_path g ext tnow c

/-- Method `RC_Channel::set_override(const uint16_t v, const uint32_t timestamp_ms)`
(RC_Channel.cpp 518-527).  `now_ms` stands for `AP_HAL::millis()`, used when
the supplied timestamp is 0.  The `rc().new_override_received()` call only
feeds the vehicle-wide override watchdog (external state). -/
def set_override (g : Globals) (now_ms : Nat) (v : Nat) (timestamp_ms : Nat)
    (c : RC_Channel) : RC_Channel :=
  if ¬g.gcs_overrides_enabled then
    c
  else
    { c with last_override_time := if timestamp_ms ≠ 0 then timestamp_ms else now_ms,
             override_value := v }

/-- Method `RC_Channel::clear_override()` (RC_Channel.cpp 529-533). -/
def clear_override (c : RC_Channel) : RC_Channel :=
  { c with last_override_time := 0, override_value := 0 }

/-- Method `RC_Channel::has_override()` (RC_Channel.cpp 535-553); `now_ms` stands
for `AP_HAL::millis()`. -/
def has_override (g : Globals) (now_ms : Nat) (c : RC_Channel) : Bool :=
  if c.override_value = 0 then
    false
  else
    match g.override_timeout_ms with
    | none =>
      -- timeouts are disabled
      true
    | some override_timeout_ms =>
      if override_timeout_ms = 0 then
        -- overrides are explicitly disabled by a zero value
        false
      else
        u32_sub now_ms c.last_override_time < override_timeout_ms

/-- The effective input of `pwm_to_range_dz` (RC_Channel.cpp 386-390):
`radio_in` clamped to the calibration range, then mirrored around the
endpoints when the channel is reversed.  The mirroring assignment stores
into an `int16_t`, hence the wrap. -/
def range_r_in (c : RC_Channel) : Int :=
  let r0 := constrain_int16 (toInt16 c.radio_in) c.radio_min c.radio_max
  if c.reversed then toInt16 (c.radio_max - (r0 - c.radio_min)) else r0

/-- Line `int16_t radio_trim_low = radio_min + _dead_zone` (RC_Channel.cpp 392). -/
def range_radio_trim_low (c : RC_Channel) (dz : Nat) : Int :=
  toInt16 (c.radio_min + dz)

/-- Method `RC_Channel::pwm_to_range_dz(uint16_t _dead_zone)` (RC_Channel.cpp
384-398) in exact rational arithmetic. -/
def pwm_to_range_dz (c : RC_Channel) (dz : Nat) : ℚ :=
  if range_r_in c > range_radio_trim_low c dz then
    (c.high_in : ℚ) * ((range_r_in c - range_radio_trim_low c dz : Int) : ℚ) /
      ((c.radio_max - range_radio_trim_low c dz : Int) : ℚ)
  else 0

/-- The denominator of the division evaluated by `pwm_to_range_dz`, or
`none` when the function returns on the `return 0` branch and evaluates no
division at all. -/
def pwm_to_range_dz_divisor (c : RC_Channel) (dz : Nat) : Option Int :=
  if range_r_in c > range_radio_trim_low c dz then
    some (c.radio_max - range_radio_trim_low c dz)
  else none

/-- Line `int16_t radio_trim_high = _trim + _dead_zone` (RC_Channel.cpp 344). -/
def angle_radio_trim_high (trim dz : Nat) : Int :=
  toInt16 ((trim : Int) + dz)

/-- Line `int16_t radio_trim_low = _trim - _dead_zone` (RC_Channel.cpp 345). -/
def angle_radio_trim_low (trim dz : Nat) : Int :=
  toInt16 ((trim : Int) - dz)

/-- The clamped input of `pwm_to_angle_dz_trim` (RC_Channel.cpp 350). -/
def angle_r_in (c : RC_Channel) : Int :=
  constrain_int16 (toInt16 c.radio_in) c.radio_min c.radio_max

/-- Method `RC_Channel::pwm_to_angle_dz_trim(uint16_t _dead_zone, uint16_t _trim)`
(RC_Channel.cpp 342-359) in exact rational arithmetic. -/
def pwm_to_angle_dz_trim (c : RC_Channel) (dz trim : Nat) : ℚ :=
  let reverse_mul : ℚ := if c.reversed then -1 else 1
  let r_in := angle_r_in c
  if r_in > angle_radio_trim_high trim dz ∧ c.radio_max ≠ angle_radio_trim_high trim dz then
    reverse_mul * ((c.high_in : ℚ) * ((r_in - angle_radio_trim_high trim dz : Int) : ℚ)) /
      ((c.radio_max - angle_radio_trim_high trim dz : Int) : ℚ)
  else if r_in < angle_radio_trim_low trim dz ∧ angle_radio_trim_low trim dz ≠ c.radio_min then
    reverse_mul * ((c.high_in : ℚ) * ((r_in - angle_radio_trim_low trim dz : Int) : ℚ)) /
      ((angle_radio_trim_low trim dz - c.radio_min : Int) : ℚ)
  else 0

/-- The denominator of the division evaluated by `pwm_to_angle_dz_trim`, or
`none` when the taken branch is `return 0`. -/
def pwm_to_angle_dz_trim_divisor (c : RC_Channel) (dz trim : Nat) : Option Int :=
  let r_in := angle_r_in c
  if r_in > angle_radio_trim_high trim dz ∧ c.radio_max ≠ angle_radio_trim_high trim dz then
    some (c.radio_max - angle_radio_trim_high trim dz)
  else if r_in < angle_radio_trim_low trim dz ∧ angle_radio_trim_low trim dz ≠ c.radio_min then
    some (angle_radio_trim_low trim dz - c.radio_min)
  else none

/-- The numeric id of `AUX_FUNC::DO_NOTHING` as stored in the `RCn_OPTION`
parameter: 0 ("@Values{...}: 0:Do Nothing" in the parameter table). -/
def DO_NOTHING_id : Nat := 0

/-- The scan loop of `RC_Channels::duplicate_options_exist` (RC_Channel.cpp
2044-2066) over the raw `option.get()` values of the channels.  The
`Bitmask<AUX_FUNCTION_MAX> used_auxsw_options` presence bitmap is modelled
as the list `seen` of ids already marked (only ids `< size` are ever
tested or set, exactly as in the source, where `size` is the bitmask's
size `AUX_FUNCTION_MAX`). -/
def duplicate_scan (size : Nat) : List Nat → List Nat → Bool
  | _, [] => false
  | seen, option :: rest =>
    if option = DO_NOTHING_id then duplicate_scan size seen rest
    else if size ≤ option then duplicate_scan size seen rest
    else if option ∈ seen then true
    else duplicate_scan size (option :: seen) rest

/-- Method `RC_Channels::duplicate_options_exist()` (RC_Channel.cpp 2044-2066):
scan all channels' option values with an empty bitmap. -/
def duplicate_options_exist (size : Nat) (options : List Nat) : Bool :=
  duplicate_scan size [] options

/-! ## Sample configuration used by the concrete witnesses -/

/-- A sample global configuration: sanity window 800/2200 µs, 3-position
thresholds 1200/1800 µs, switch reversal not allowed, GCS overrides
enabled, override timeouts disabled. -/
def sample_globals : Globals :=
  { rc_min_limit_pwm := 800, rc_max_limit_pwm := 2200,
    aux_switch_pwm_trigger_low := 1200, aux_switch_pwm_trigger_high := 1800,
    allow_switch_rev := false, gcs_overrides_enabled := true,
    override_timeout_ms := none }

/-- Sample external camera-handler results (all succeed). -/
def sample_ext : ExternalResults :=
  { record_video := fun _ => true, camera_zoom := fun _ => true,
    camera_manual_focus := fun _ => true, camera_auto_focus := fun _ => true,
    camera_image_tracking := fun _ => true, camera_lens := fun _ => true }

/-- The switch state of a freshly constructed channel: both positions unset
(`-1`, the spec's "unset" marker, as also written by `reset_mode_switch`),
no classification yet. -/
def fresh_switch_state : SwitchState :=
  { current_position := -1, debounce_position := -1,
    last_edge_time_ms := 0, initialised := false }

/-- A sample channel with the default calibration (1100/1500/1900), a given
option and pulse width, and fresh switch state. -/
def sample_channel (f : AUX_FUNC) (pw : Nat) : RC_Channel :=
  { ch_in := 0, radio_min := 1100, radio_trim := 1500, radio_max := 1900,
    reversed := false, dead_zone := 0, high_in := 100, radio_in := pw,
    option := f, override_value := 0, last_override_time := 0,
    switch_state := fresh_switch_state }

/-! ## Helper lemmas -/

/-- Casts `(int8_t)` of distinct switch positions are distinct. -/
theorem AuxSwitchPos.toInt8_inj {p q : AuxSwitchPos} (h : p ≠ q) :
    p.toInt8 ≠ q.toInt8 := by
  cases p <;> cases q <;> simp_all [AuxSwitchPos.toInt8]

/-- Casts `(int8_t)` of switch positions are never the unset marker `-1`. -/
theorem AuxSwitchPos.toInt8_ne_neg_one (p : AuxSwitchPos) : p.toInt8 ≠ -1 := by
  cases p <;> simp [AuxSwitchPos.toInt8]

/-- A deferred-initial-action option is neither `DO_NOTHING` nor
`VTX_POWER`, so `read_aux` takes the 3-position path for it. -/
theorem deferred_not_special {f : AUX_FUNC}
    (h : init_position_on_first_radio_read f = true) :
    f ≠ .DO_NOTHING ∧ f ≠ .VTX_POWER := by
  cases f <;> simp_all [init_position_on_first_radio_read]

/-- For any option other than `DO_NOTHING` and `VTX_POWER`, `read_aux` is
the 3-position-switch path. -/
theorem read_aux_eq_3pos_path (g : Globals) (ext : ExternalResults)
    (tnow : Nat) (c : RC_Channel) (h1 : c.option ≠ .DO_NOTHING)
    (h2 : c.option ≠ .VTX_POWER) :
    read_aux g ext tnow c = read_aux_3pos_path g ext tnow c := by
  rcases c with ⟨chin, rmin, rtrim, rmax, rev, dz, hi, rin, opt, ov, lot, ss⟩
  cases opt <;> first
    | rfl
    | exact absurd rfl h1
    | exact absurd rfl h2

/-- Function `read_3pos_switch` depends only on the pulse width and the reversal
flag of the channel. -/
theorem read_3pos_switch_congr (g : Globals) (c c' : RC_Channel)
    (hin : c.radio_in = c'.radio_in) (hrev : c.reversed = c'.reversed) :
    read_3pos_switch g c = read_3pos_switch g c' := by
  simp only [read_3pos_switch, hin, hrev]

/-- Run `debounce_completed` over a list of (time, position) samples,
keeping the evolving switch state. -/
def debounce_run (samples : List (Nat × Int)) (s : SwitchState) : SwitchState :=
  samples.foldl (fun st tp => (debounce_completed tp.2 tp.1 st).1) s

/-- The first `n` samples of the C3 scenario: position 3 sampled every
20 ms starting at t = 1000 ms. -/
def debounce_samples (n : Nat) : List (Nat × Int) :=
  (List.range n).map (fun i => (1000 + 20 * i, (3 : Int)))

/-! ## Claims -/

/-- C10: after any call to `debounce_completed(p)` the field
`debounce_position` equals `p`; `current_position` is written only by calls
that return true, in which case it equals `p` afterwards, and is untouched
by calls that return false. -/
theorem debounce_completed_state_invariants (s : SwitchState) (p : Int)
    (t : Nat) :
    (debounce_completed p t s).1.debounce_position = p ∧
    ((debounce_completed p t s).2 = false →
      (debounce_completed p t s).1.current_position = s.current_position) ∧
    ((debounce_completed p t s).2 = true →
      (debounce_completed p t s).1.current_position = p) := by
  unfold debounce_completed
  split
  · simp_all
  · split
    · simp_all
    · split <;> simp_all

/-- Witness for C10 at a concrete state, position and time. -/
theorem debounce_completed_state_invariants_witness :
    (debounce_completed 3 1000 ⟨0, 0, 0, true⟩).1.debounce_position = 3 ∧
    ((debounce_completed 3 1000 ⟨0, 0, 0, true⟩).2 = false →
      (debounce_completed 3 1000 ⟨0, 0, 0, true⟩).1.current_position = 0) ∧
    ((debounce_completed 3 1000 ⟨0, 0, 0, true⟩).2 = true →
      (debounce_completed 3 1000 ⟨0, 0, 0, true⟩).1.current_position = 3) :=
  debounce_completed_state_invariants ⟨0, 0, 0, true⟩ 3 1000

/-- C3: `debounce_completed` is the specified three-outcome machine
(unchanged / pending / confirmed, the latter exactly when 200 ms have
elapsed since the recorded edge), and in the scenario where the position
changes from 0 to 3 at t = 1000 ms with samples every 20 ms,
`current_position` stays 0 for all samples with t < 1200 ms and becomes 3
at the first sample with t ≥ 1200 ms. -/
theorem debounce_completed_three_outcomes (s : SwitchState) (p : Int)
    (t : Nat) :
    (s.current_position = p →
      debounce_completed p t s = ({ s with debounce_position := p }, false)) ∧
    (s.current_position ≠ p → s.debounce_position ≠ p →
      debounce_completed p t s =
        ({ s with debounce_position := p, last_edge_time_ms := t }, false)) ∧
    (s.current_position ≠ p → s.debounce_position = p →
      ((debounce_completed p t s).2 = true ↔
        SWITCH_DEBOUNCE_TIME_MS ≤ u32_sub t s.last_edge_time_ms) ∧
      (SWITCH_DEBOUNCE_TIME_MS ≤ u32_sub t s.last_edge_time_ms →
        debounce_completed p t s = ({ s with current_position := p }, true))) ∧
    ((∀ n, n ≤ 10 →
      (debounce_run (debounce_samples n) ⟨0, 0, 0, true⟩).current_position = 0) ∧
      (debounce_completed 3 1200
        (debounce_run (debounce_samples 10) ⟨0, 0, 0, true⟩)).2 = true ∧
      (debounce_run (debounce_samples 11) ⟨0, 0, 0, true⟩).current_position = 3) := by
  refine ⟨?_, ?_, ?_, by decide⟩
  · intro h
    simp [debounce_completed, h]
  · intro h1 h2
    simp [debounce_completed, h1, h2]
  · intro h1 h2
    constructor
    · unfold debounce_completed
      rw [if_neg h1, if_neg (by simpa using h2)]
      split <;> simp_all
    · intro ht
      unfold debounce_completed
      rw [if_neg h1, if_neg (by simpa using h2), if_pos ht]

/-- Witness for C3 at a concrete state, position and time. -/
theorem debounce_completed_three_outcomes_witness :
    ((⟨0, 0, 500, true⟩ : SwitchState).current_position ≠ 3) ∧
    ((⟨0, 0, 500, true⟩ : SwitchState).debounce_position ≠ 3) ∧
    debounce_completed 3 900 ⟨0, 0, 500, true⟩ =
      ({ current_position := 0, debounce_position := 3,
         last_edge_time_ms := 900, initialised := true }, false) :=
  ⟨by decide, by decide,
    (debounce_completed_three_outcomes ⟨0, 0, 500, true⟩ 3 900).2.1
      (by decide) (by decide)⟩

/-- C9: the 6-band derivation of `read_6pos_switch` maps every in-window
PWM to a position by the documented thresholds (1231/1361/1491/1621/1750),
so 1200→0, 1350→1, 1480→2, 1600→3, 1700→4, 1800→5; every PWM at or below
the low sanity limit or at or above the high sanity limit is rejected as no
reading (`read_6pos_switch` returns false without touching any state), and
every position it does report is the band of the pulse width. -/
theorem read_6pos_switch_bands :
    (∀ (g : Globals) (t : Nat) (c : RC_Channel),
      c.radio_in ≤ g.rc_min_limit_pwm ∨ c.radio_in ≥ g.rc_max_limit_pwm →
      read_6pos_switch g t c = (c, none)) ∧
    (∀ (g : Globals) (t : Nat) (c : RC_Channel) (p : Int),
      (read_6pos_switch g t c).2 = some p → p = six_band c.radio_in) ∧
    (∀ pw, pw < 1231 → six_band pw = 0) ∧
    (∀ pw, 1231 ≤ pw → pw < 1361 → six_band pw = 1) ∧
    (∀ pw, 1361 ≤ pw → pw < 1491 → six_band pw = 2) ∧
    (∀ pw, 1491 ≤ pw → pw < 1621 → six_band pw = 3) ∧
    (∀ pw, 1621 ≤ pw → pw < 1750 → six_band pw = 4) ∧
    (∀ pw, 1750 ≤ pw → six_band pw = 5) ∧
    six_band 1200 = 0 ∧ six_band 1350 = 1 ∧ six_band 1480 = 2 ∧
    six_band 1600 = 3 ∧ six_band 1700 = 4 ∧ six_band 1800 = 5 := by
  refine ⟨?_, ?_, ?_, ?_, ?_, ?_, ?_, ?_, by decide, by decide, by decide,
    by decide, by decide, by decide⟩
  · intro g t c h
    simp [read_6pos_switch, h]
  · intro g t c p h
    unfold read_6pos_switch at h
    dsimp only at h
    split at h
    · simp at h
    · split at h
      · simpa using h.symm
      · simp at h
  all_goals
    intro pw
    intros
    unfold six_band
    omega

/-- Witness for C9: rejection at the low sanity limit of the sample
configuration, and a confirmed in-window reading is the band value. -/
theorem read_6pos_switch_bands_witness :
    read_6pos_switch sample_globals 1000 (sample_channel .VTX_POWER 800) =
      (sample_channel .VTX_POWER 800, none) ∧
    six_band 1800 = 5 :=
  ⟨read_6pos_switch_bands.1 sample_globals 1000 (sample_channel .VTX_POWER 800)
      (Or.inl (by decide)),
    read_6pos_switch_bands.2.2.2.2.2.2.2.1 1800 (by decide)⟩

/-- C5: `has_override` is false for the 0 sentinel; true when timeouts are
globally disabled; false when the configured timeout is exactly 0; else
true iff the elapsed time since the stored timestamp is strictly below the
timeout.  After `set_override(v, t=1000)` with nonzero `v` and a 3000 ms
timeout it is true at t = 3900 and false at t = 4500, and with timeout 0 it
is always false. -/
theorem has_override_spec :
    (∀ (g : Globals) (now : Nat) (c : RC_Channel),
      c.override_value = 0 → has_override g now c = false) ∧
    (∀ (g : Globals) (now : Nat) (c : RC_Channel),
      c.override_value ≠ 0 → g.override_timeout_ms = none →
      has_override g now c = true) ∧
    (∀ (g : Globals) (now : Nat) (c : RC_Channel),
      c.override_value ≠ 0 → g.override_timeout_ms = some 0 →
      has_override g now c = false) ∧
    (∀ (g : Globals) (now : Nat) (c : RC_Channel) (t : Nat),
      c.override_value ≠ 0 → g.override_timeout_ms = some t → t ≠ 0 →
      (has_override g now c = true ↔ u32_sub now c.last_override_time < t)) ∧
    (∀ (g : Globals) (c : RC_Channel) (v : Nat),
      g.gcs_overrides_enabled = true → v ≠ 0 →
      has_override { g with override_timeout_ms := some 3000 } 3900
          (set_override g 0 v 1000 c) = true ∧
      has_override { g with override_timeout_ms := some 3000 } 4500
          (set_override g 0 v 1000 c) = false ∧
      ∀ now, has_override { g with override_timeout_ms := some 0 } now
          (set_override g 0 v 1000 c) = false) := by
  refine ⟨?_, ?_, ?_, ?_, ?_⟩
  · intro g now c h
    simp [has_override, h]
  · intro g now c h ht
    simp [has_override, h, ht]
  · intro g now c h ht
    simp [has_override, h, ht]
  · intro g now c t h ht ht0
    simp [has_override, h, ht, ht0]
  · intro g c v hen hv
    have hset : set_override g 0 v 1000 c =
        { c with last_override_time := 1000, override_value := v } := by
      simp [set_override, hen]
    refine ⟨?_, ?_, ?_⟩
    · rw [hset]
      simp only [has_override, hv]
      simp [hv]
      decide
    · rw [hset]
      simp only [has_override]
      simp [hv]
      decide
    · intro now
      rw [hset]
      simp [has_override, hv]

/-- Witness for C5 at a concrete configuration and override value. -/
theorem has_override_spec_witness :
    has_override { sample_globals with override_timeout_ms := some 3000 } 3900
        (set_override sample_globals 0 1500 1000 (sample_channel .DO_NOTHING 0)) =
      true ∧
    has_override { sample_globals with override_timeout_ms := some 3000 } 4500
        (set_override sample_globals 0 1500 1000 (sample_channel .DO_NOTHING 0)) =
      false ∧
    ∀ now, has_override { sample_globals with override_timeout_ms := some 0 } now
        (set_override sample_globals 0 1500 1000 (sample_channel .DO_NOTHING 0)) =
      false :=
  has_override_spec.2.2.2.2 sample_globals (sample_channel .DO_NOTHING 0) 1500
    rfl (by decide)

/-- The scan loop with an arbitrary set of already-marked ids: it reports a
duplicate iff some checkable id (non-zero, inside the bitmap) occurs twice
in the remaining channels, or occurs there at all while already marked. -/
theorem duplicate_scan_iff (size : Nat) (l : List Nat) :
    ∀ seen : List Nat,
      duplicate_scan size seen l = true ↔
        ∃ id, id ≠ DO_NOTHING_id ∧ id < size ∧
          (2 ≤ l.count id ∨ (id ∈ seen ∧ 1 ≤ l.count id)) := by
  induction l with
  | nil =>
    intro seen
    simp [duplicate_scan]
  | cons o rest ih =>
    intro seen
    by_cases h0 : o = DO_NOTHING_id
    · rw [show duplicate_scan size seen (o :: rest) = duplicate_scan size seen rest by
        simp [duplicate_scan, h0]]
      rw [ih]
      constructor
      · rintro ⟨id, hid, hsz, hc⟩
        have hne : id ≠ o := by rw [h0]; exact hid
        exact ⟨id, hid, hsz, by rwa [List.count_cons_of_ne hne]⟩
      · rintro ⟨id, hid, hsz, hc⟩
        have hne : id ≠ o := by rw [h0]; exact hid
        rw [List.count_cons_of_ne hne] at hc
        exact ⟨id, hid, hsz, hc⟩
    · by_cases hsz : size ≤ o
      · rw [show duplicate_scan size seen (o :: rest) = duplicate_scan size seen rest by
          simp [duplicate_scan, h0, hsz]]
        rw [ih]
        constructor
        · rintro ⟨id, hid, hid_sz, hc⟩
          have hne : id ≠ o := by omega
          exact ⟨id, hid, hid_sz, by rwa [List.count_cons_of_ne hne]⟩
        · rintro ⟨id, hid, hid_sz, hc⟩
          have hne : id ≠ o := by omega
          rw [List.count_cons_of_ne hne] at hc
          exact ⟨id, hid, hid_sz, hc⟩
      · by_cases hm : o ∈ seen
        · rw [show duplicate_scan size seen (o :: rest) = true by
            simp [duplicate_scan, h0, hsz, hm]]
          simp only [true_iff]
          exact ⟨o, h0, by omega,
            Or.inr ⟨hm, by rw [List.count_cons_self]; omega⟩⟩
        · rw [show duplicate_scan size seen (o :: rest) =
              duplicate_scan size (o :: seen) rest by
            simp [duplicate_scan, h0, hsz, hm]]
          rw [ih]
          constructor
          · rintro ⟨id, hid, hid_sz, hc⟩
            refine ⟨id, hid, hid_sz, ?_⟩
            rcases hc with hc | ⟨hmem, hc⟩
            · exact Or.inl (le_trans hc (List.count_le_count_cons id o rest))
            · rcases List.mem_cons.mp hmem with heq | hmem'
              · subst heq
                exact Or.inl (by rw [List.count_cons_self]; omega)
              · exact Or.inr ⟨hmem',
                  le_trans hc (List.count_le_count_cons id o rest)⟩
          · rintro ⟨id, hid, hid_sz, hc⟩
            refine ⟨id, hid, hid_sz, ?_⟩
            by_cases hio : id = o
            · subst hio
              rcases hc with hc | ⟨hmem, hc⟩
              · rw [List.count_cons_self] at hc
                exact Or.inr ⟨List.mem_cons_self id seen, by omega⟩
              · exact absurd hmem hm
            · rw [List.count_cons_of_ne hio] at hc
              rcases hc with hc | ⟨hmem, hc⟩
              · exact Or.inl hc
              · exact Or.inr ⟨List.mem_cons_of_mem o hmem, hc⟩

/-- C7: `duplicate_options_exist` is true iff at least two channels are
assigned the same function id that is not `DO_NOTHING` and lies inside the
bitmap's valid id range; in every other configuration (all channels
`DO_NOTHING`, or the only repeated ids at or above the bitmap size) it is
false. -/
theorem duplicate_options_exist_iff (size : Nat) (options : List Nat) :
    duplicate_options_exist size options = true ↔
      ∃ id, id ≠ DO_NOTHING_id ∧ id < size ∧ 2 ≤ options.count id := by
  unfold duplicate_options_exist
  rw [duplicate_scan_iff]
  simp

/-- Witness for C7: a repeated in-range id is detected; all-`DO_NOTHING`
and an out-of-range repeat are not. -/
theorem duplicate_options_exist_iff_witness :
    duplicate_options_exist 107 [0, 9, 0, 41, 9] = true ∧
    duplicate_options_exist 107 [0, 0, 0, 0] = false ∧
    duplicate_options_exist 107 [300, 300, 0, 0] = false :=
  ⟨(duplicate_options_exist_iff 107 [0, 9, 0, 41, 9]).mpr
      ⟨9, by decide, by decide, by decide⟩,
    by decide, by decide⟩

/-- C8: a function id with no case in `do_aux_function`'s dispatch switch
(the ids this translation unit leaves to vehicle subclasses — modelled by
`other n` — and the ids that appear here only outside the dispatch switch:
`DO_NOTHING`, `VTX_POWER`, `ARMDISARM_AIRMODE`, `PARACHUTE_RELEASE`) makes
`do_aux_function`, and hence `run_aux_function`, return false and leave
every field of the channel unchanged; the recognized-but-intentionally-inert
ids (mount angle inputs, the scripting ids, the Loweheiser pass-throughs)
instead return true as no-ops, also leaving the channel unchanged. -/
theorem do_aux_function_unknown_fails_inert_succeeds :
    (∀ (t : AuxFuncTrigger) (ext : ExternalResults) (c : RC_Channel),
      (t.func = .DO_NOTHING ∨ t.func = .VTX_POWER ∨ t.func = .ARMDISARM_AIRMODE ∨
          t.func = .PARACHUTE_RELEASE ∨ ∃ n, t.func = .other n) →
        do_aux_function t ext c = (c, false)) ∧
    (∀ (ext : ExternalResults) (pos : AuxSwitchPos) (src : AuxFuncSource)
        (idx : Nat) (c : RC_Channel) (n : Nat),
      run_aux_function ext (.other n) pos src idx c = (c, false)) ∧
    (∀ (t : AuxFuncTrigger) (ext : ExternalResults) (c : RC_Channel),
      (t.func = .MOUNT1_ROLL ∨ t.func = .MOUNT1_PITCH ∨ t.func = .MOUNT1_YAW ∨
          t.func = .MOUNT2_ROLL ∨ t.func = .MOUNT2_PITCH ∨ t.func = .MOUNT2_YAW ∨
          t.func = .SCRIPTING_1 ∨ t.func = .SCRIPTING_2 ∨ t.func = .SCRIPTING_3 ∨
          t.func = .SCRIPTING_4 ∨ t.func = .SCRIPTING_5 ∨ t.func = .SCRIPTING_6 ∨
          t.func = .SCRIPTING_7 ∨ t.func = .SCRIPTING_8 ∨ t.func = .SCRIPTING_9 ∨
          t.func = .SCRIPTING_10 ∨ t.func = .SCRIPTING_11 ∨ t.func = .SCRIPTING_12 ∨
          t.func = .SCRIPTING_13 ∨ t.func = .SCRIPTING_14 ∨ t.func = .SCRIPTING_15 ∨
          t.func = .SCRIPTING_16 ∨ t.func = .LOWEHEISER_THROTTLE ∨
          t.func = .LOWEHEISER_STARTER) →
        do_aux_function t ext c = (c, true)) := by
  refine ⟨?_, ?_, ?_⟩
  · rintro ⟨f, pos, src, idx⟩ ext c
      (rfl | rfl | rfl | rfl | ⟨n, rfl⟩) <;> rfl
  · intro ext pos src idx c n
    rfl
  · rintro ⟨f, pos, src, idx⟩ ext c
      (rfl | rfl | rfl | rfl | rfl | rfl | rfl | rfl | rfl | rfl | rfl | rfl |
        rfl | rfl | rfl | rfl | rfl | rfl | rfl | rfl | rfl | rfl | rfl | rfl) <;>
      rfl

/-- Witness for C8 at a concrete unrecognized id and a concrete inert id. -/
theorem do_aux_function_unknown_fails_inert_succeeds_witness :
    do_aux_function ⟨.other 999, .HIGH, .RC, 0⟩ sample_ext
        (sample_channel (.other 999) 1500) =
      (sample_channel (.other 999) 1500, false) ∧
    run_aux_function sample_ext (.other 999) .HIGH .RC 0
        (sample_channel (.other 999) 1500) =
      (sample_channel (.other 999) 1500, false) ∧
    do_aux_function ⟨.SCRIPTING_1, .LOW, .RC, 0⟩ sample_ext
        (sample_channel .SCRIPTING_1 1500) =
      (sample_channel .SCRIPTING_1 1500, true) :=
  ⟨do_aux_function_unknown_fails_inert_succeeds.1 ⟨.other 999, .HIGH, .RC, 0⟩
      sample_ext (sample_channel (.other 999) 1500)
      (Or.inr (Or.inr (Or.inr (Or.inr ⟨999, rfl⟩)))),
    do_aux_function_unknown_fails_inert_succeeds.2.1 sample_ext .HIGH .RC 0
      (sample_channel (.other 999) 1500) 999,
    do_aux_function_unknown_fails_inert_succeeds.2.2 ⟨.SCRIPTING_1, .LOW, .RC, 0⟩
      sample_ext (sample_channel .SCRIPTING_1 1500)
      (Or.inr (Or.inr (Or.inr (Or.inr (Or.inr (Or.inr (Or.inl rfl)))))))⟩

/-- C1: for a channel whose option is in the deferred-initial-action set
(`ARMDISARM`, `ARMDISARM_AIRMODE`, `ARM_EMERGENCY_STOP`,
`PARACHUTE_RELEASE`), the very first successful 3-position classification in
`read_aux` never invokes the function's handler, for every initial position
`p`: the position is latched as `current_position` and `read_aux` returns
false; and the handler is invoked on the first subsequent confirmed
(debounced) transition to a different position `q`: a read classified `q`
at time `t1` is still pending, and a second read classified `q` at time
`t2` with `t2 - t1 ≥ 200 ms` runs the function at `q` and returns true. -/
theorem read_aux_deferred_initial_action (g : Globals) (ext : ExternalResults)
    (c : RC_Channel) (t0 : Nat) (p : AuxSwitchPos)
    (hdef : init_position_on_first_radio_read c.option = true)
    (hinit : c.switch_state.initialised = false)
    (hread : read_3pos_switch g c = some p) :
    read_aux g ext t0 c =
      ({ c with switch_state :=
          { current_position := p.toInt8, debounce_position := p.toInt8,
            last_edge_time_ms := c.switch_state.last_edge_time_ms,
            initialised := true } }, none, false) ∧
    ∀ (q : AuxSwitchPos) (pw1 pw2 t1 t2 : Nat),
      q ≠ p →
      read_3pos_switch g { c with radio_in := pw1 } = some q →
      read_3pos_switch g { c with radio_in := pw2 } = some q →
      SWITCH_DEBOUNCE_TIME_MS ≤ u32_sub t2 t1 →
      (read_aux g ext t1 { (read_aux g ext t0 c).1 with radio_in := pw1 }).2 =
        (none, false) ∧
      (read_aux g ext t2
          { (read_aux g ext t1
              { (read_aux g ext t0 c).1 with radio_in := pw1 }).1 with
            radio_in := pw2 }).2 =
        (some (.runAux c.option q), true) := by
  obtain ⟨h1, h2⟩ := deferred_not_special hdef
  have hfirst : read_aux g ext t0 c =
      ({ c with switch_state :=
          { current_position := p.toInt8, debounce_position := p.toInt8,
            last_edge_time_ms := c.switch_state.last_edge_time_ms,
            initialised := true } }, none, false) := by
    rw [read_aux_eq_3pos_path g ext t0 c h1 h2]
    unfold read_aux_3pos_path
    rw [hread]
    simp [hinit, hdef, debounce_completed]
  refine ⟨hfirst, ?_⟩
  intro q pw1 pw2 t1 t2 hq hr1 hr2 ht
  have hpq : p.toInt8 ≠ q.toInt8 := AuxSwitchPos.toInt8_inj (Ne.symm hq)
  rw [hfirst]
  have hstep1 : read_aux g ext t1
      { c with radio_in := pw1, switch_state :=
          { current_position := p.toInt8, debounce_position := p.toInt8,
            last_edge_time_ms := c.switch_state.last_edge_time_ms,
            initialised := true } } =
      ({ c with radio_in := pw1, switch_state :=
          { current_position := p.toInt8, debounce_position := q.toInt8,
            last_edge_time_ms := t1, initialised := true } }, none, false) := by
    rw [read_aux_eq_3pos_path g ext t1
      { c with radio_in := pw1, switch_state :=
          { current_position := p.toInt8, debounce_position := p.toInt8,
            last_edge_time_ms := c.switch_state.last_edge_time_ms,
            initialised := true } } h1 h2]
    unfold read_aux_3pos_path
    rw [show read_3pos_switch g
        { c with radio_in := pw1, switch_state :=
            { current_position := p.toInt8, debounce_position := p.toInt8,
              last_edge_time_ms := c.switch_state.last_edge_time_ms,
              initialised := true } } = some q from
      (read_3pos_switch_congr g _ { c with radio_in := pw1 } rfl rfl).trans hr1]
    simp [debounce_completed, hpq]
  have hstep2 : read_aux g ext t2
      { c with radio_in := pw2, switch_state :=
          { current_position := p.toInt8, debounce_position := q.toInt8,
            last_edge_time_ms := t1, initialised := true } } =
      ((run_aux_function ext c.option q .RC c.ch_in
          { c with radio_in := pw2, switch_state :=
              { current_position := q.toInt8, debounce_position := q.toInt8,
                last_edge_time_ms := t1, initialised := true } }).1,
        some (.runAux c.option q), true) := by
    rw [read_aux_eq_3pos_path g ext t2
      { c with radio_in := pw2, switch_state :=
          { current_position := p.toInt8, debounce_position := q.toInt8,
            last_edge_time_ms := t1, initialised := true } } h1 h2]
    unfold read_aux_3pos_path
    rw [show read_3pos_switch g
        { c with radio_in := pw2, switch_state :=
            { current_position := p.toInt8, debounce_position := q.toInt8,
              last_edge_time_ms := t1, initialised := true } } = some q from
      (read_3pos_switch_congr g _ { c with radio_in := pw2 } rfl rfl).trans hr2]
    simp [debounce_completed, hpq, ht]
  simp [hstep1, hstep2]

/-- Witness for C1: an `ARMDISARM` channel first read at HIGH latches the
position without arming and returns false. -/
theorem read_aux_deferred_initial_action_witness :
    read_aux sample_globals sample_ext 500 (sample_channel .ARMDISARM 1900) =
      ({ sample_channel .ARMDISARM 1900 with switch_state :=
          { current_position := 2, debounce_position := 2,
            last_edge_time_ms := 0, initialised := true } }, none, false) ∧
    ∀ (q : AuxSwitchPos) (pw1 pw2 t1 t2 : Nat),
      q ≠ .HIGH →
      read_3pos_switch sample_globals
          { sample_channel .ARMDISARM 1900 with radio_in := pw1 } = some q →
      read_3pos_switch sample_globals
          { sample_channel .ARMDISARM 1900 with radio_in := pw2 } = some q →
      SWITCH_DEBOUNCE_TIME_MS ≤ u32_sub t2 t1 →
      (read_aux sample_globals sample_ext t1
          { (read_aux sample_globals sample_ext 500
              (sample_channel .ARMDISARM 1900)).1 with radio_in := pw1 }).2 =
        (none, false) ∧
      (read_aux sample_globals sample_ext t2
          { (read_aux sample_globals sample_ext t1
              { (read_aux sample_globals sample_ext 500
                  (sample_channel .ARMDISARM 1900)).1 with
                radio_in := pw1 }).1 with radio_in := pw2 }).2 =
        (some (.runAux .ARMDISARM q), true) :=
  read_aux_deferred_initial_action sample_globals sample_ext
    (sample_channel .ARMDISARM 1900) 500 .HIGH rfl rfl rfl

/-- Counterexample to C2: a `FENCE` channel (dispatched, not deferred, not
`DO_NOTHING`, not the 6-position special case) whose very first successful
3-position classification is MIDDLE does *not* invoke the handler and
returns false — the first read only starts the debounce window. -/
theorem read_aux_first_read_immediate_counterexample :
    init_position_on_first_radio_read (sample_channel .FENCE 1500).option = false ∧
    (sample_channel .FENCE 1500).option ≠ .DO_NOTHING ∧
    (sample_channel .FENCE 1500).option ≠ .VTX_POWER ∧
    (sample_channel .FENCE 1500).switch_state.initialised = false ∧
    read_3pos_switch sample_globals (sample_channel .FENCE 1500) = some .MIDDLE ∧
    (read_aux sample_globals sample_ext 1000 (sample_channel .FENCE 1500)).2 =
      (none, false) :=
  ⟨rfl, fun h => AUX_FUNC.noConfusion h, fun h => AUX_FUNC.noConfusion h,
    rfl, rfl, rfl⟩

/-- C2 (amended): for a channel whose option is dispatched but not in the
deferred set (and not `DO_NOTHING` or `VTX_POWER`), with unset switch state,
the first successful 3-position classification at position `p` does not run
the function: it records `p` as the debounce candidate with edge time `t0`
and returns false, leaving `current_position` unset; the handler runs at the
initial position `p` on the first subsequent read classified `p` at a time
`t1` with `t1 - t0 ≥ 200 ms`, which returns true. -/
theorem read_aux_first_read_starts_debounce (g : Globals)
    (ext : ExternalResults) (c : RC_Channel) (t0 e0 : Nat) (p : AuxSwitchPos)
    (hnd : init_position_on_first_radio_read c.option = false)
    (h1 : c.option ≠ .DO_NOTHING) (h2 : c.option ≠ .VTX_POWER)
    (hss : c.switch_state =
      { current_position := -1, debounce_position := -1,
        last_edge_time_ms := e0, initialised := false })
    (hread : read_3pos_switch g c = some p) :
    read_aux g ext t0 c =
      ({ c with switch_state :=
          { current_position := -1, debounce_position := p.toInt8,
            last_edge_time_ms := t0, initialised := true } }, none, false) ∧
    ∀ (pw1 t1 : Nat),
      read_3pos_switch g { c with radio_in := pw1 } = some p →
      SWITCH_DEBOUNCE_TIME_MS ≤ u32_sub t1 t0 →
      (read_aux g ext t1
          { (read_aux g ext t0 c).1 with radio_in := pw1 }).2 =
        (some (.runAux c.option p), true) := by
  have hp1 : (-1 : Int) ≠ p.toInt8 := Ne.symm (AuxSwitchPos.toInt8_ne_neg_one p)
  have hfirst : read_aux g ext t0 c =
      ({ c with switch_state :=
          { current_position := -1, debounce_position := p.toInt8,
            last_edge_time_ms := t0, initialised := true } }, none, false) := by
    rw [read_aux_eq_3pos_path g ext t0 c h1 h2]
    unfold read_aux_3pos_path
    rw [hread]
    simp [hss, hnd, debounce_completed, hp1]
  refine ⟨hfirst, ?_⟩
  intro pw1 t1 hr1 ht
  rw [hfirst]
  have hstep1 : read_aux g ext t1
      { c with radio_in := pw1, switch_state :=
          { current_position := -1, debounce_position := p.toInt8,
            last_edge_time_ms := t0, initialised := true } } =
      ((run_aux_function ext c.option p .RC c.ch_in
          { c with radio_in := pw1, switch_state :=
              { current_position := p.toInt8, debounce_position := p.toInt8,
                last_edge_time_ms := t0, initialised := true } }).1,
        some (.runAux c.option p), true) := by
    rw [read_aux_eq_3pos_path g ext t1
      { c with radio_in := pw1, switch_state :=
          { current_position := -1, debounce_position := p.toInt8,
            last_edge_time_ms := t0, initialised := true } } h1 h2]
    unfold read_aux_3pos_path
    rw [show read_3pos_switch g
        { c with radio_in := pw1, switch_state :=
            { current_position := -1, debounce_position := p.toInt8,
              last_edge_time_ms := t0, initialised := true } } = some p from
      (read_3pos_switch_congr g _ { c with radio_in := pw1 } rfl rfl).trans hr1]
    simp [debounce_completed, hp1, ht]
  simp [hstep1]

/-- Witness for the amended C2: a `FENCE` channel first classified MIDDLE
at t = 1000 ms starts the debounce; a read at t = 1200 ms runs the
function at MIDDLE. -/
theorem read_aux_first_read_starts_debounce_witness :
    read_aux sample_globals sample_ext 1000 (sample_channel .FENCE 1500) =
      ({ sample_channel .FENCE 1500 with switch_state :=
          { current_position := -1, debounce_position := 1,
            last_edge_time_ms := 1000, initialised := true } }, none, false) ∧
    ∀ (pw1 t1 : Nat),
      read_3pos_switch sample_globals
          { sample_channel .FENCE 1500 with radio_in := pw1 } = some .MIDDLE →
      SWITCH_DEBOUNCE_TIME_MS ≤ u32_sub t1 1000 →
      (read_aux sample_globals sample_ext t1
          { (read_aux sample_globals sample_ext 1000
              (sample_channel .FENCE 1500)).1 with radio_in := pw1 }).2 =
        (some (.runAux .FENCE .MIDDLE), true) :=
  read_aux_first_read_starts_debounce sample_globals sample_ext
    (sample_channel .FENCE 1500) 1000 0 .MIDDLE rfl
    (fun h => AUX_FUNC.noConfusion h) (fun h => AUX_FUNC.noConfusion h)
    rfl rfl

/-- Wrap `toInt16` is the identity on values already in the `int16_t` range. -/
theorem toInt16_eq_self {n : Int} (h1 : -32768 ≤ n) (h2 : n < 32768) :
    toInt16 n = n := by
  unfold toInt16
  have h3 : (n + 32768) % 65536 = n + 32768 :=
    Int.emod_eq_of_lt (by omega) (by omega)
  omega

/-- With an inverted calibration (`radio_max ≤ radio_min`) the clamp
returns one of the two endpoints. -/
theorem constrain_int16_inverted {a low high : Int} (h : high ≤ low) :
    constrain_int16 a low high = low ∨ constrain_int16 a low high = high := by
  unfold constrain_int16
  split
  · exact Or.inl rfl
  · split
    · exact Or.inr rfl
    · exact Or.inr (by omega)

/-- The clamp is the identity inside the calibration range. -/
theorem constrain_int16_of_mem {a low high : Int} (h1 : low ≤ a)
    (h2 : a ≤ high) : constrain_int16 a low high = a := by
  unfold constrain_int16
  rw [if_neg (by omega), if_neg (by omega)]

/-- Monotonicity of one deadzone band term
`if t < x then H * (x - t) / (M - t) else 0` in `x` on `(-∞, M]`. -/
theorem band_mono (H : ℚ) (hH : 0 ≤ H) (t M x1 x2 : Int) (h12 : x1 ≤ x2)
    (h2M : x2 ≤ M) :
    (if t < x1 then H * ((x1 - t : Int) : ℚ) / ((M - t : Int) : ℚ) else 0) ≤
      (if t < x2 then H * ((x2 - t : Int) : ℚ) / ((M - t : Int) : ℚ) else 0) := by
  by_cases hx2 : t < x2
  · rw [if_pos hx2]
    have hd : (0 : ℚ) < ((M - t : Int) : ℚ) := by
      exact_mod_cast (by omega : (0 : Int) < M - t)
    by_cases hx1 : t < x1
    · rw [if_pos hx1]
      refine (div_le_div_iff_of_pos_right hd).mpr ?_
      exact mul_le_mul_of_nonneg_left
        (by exact_mod_cast sub_le_sub_right h12 t) hH
    · rw [if_neg hx1]
      refine div_nonneg (mul_nonneg hH ?_) hd.le
      exact_mod_cast (by omega : (0 : Int) ≤ x2 - t)
  · rw [if_neg hx2, if_neg (by omega : ¬t < x1)]

/-- One deadzone band term lies in `[0, H]` for `x ≤ M`. -/
theorem band_bounds (H : ℚ) (hH : 0 ≤ H) (t M x : Int) (hxM : x ≤ M) :
    0 ≤ (if t < x then H * ((x - t : Int) : ℚ) / ((M - t : Int) : ℚ) else 0) ∧
      (if t < x then H * ((x - t : Int) : ℚ) / ((M - t : Int) : ℚ) else 0) ≤ H := by
  by_cases hx : t < x
  · rw [if_pos hx]
    have hd : (0 : ℚ) < ((M - t : Int) : ℚ) := by
      exact_mod_cast (by omega : (0 : Int) < M - t)
    constructor
    · refine div_nonneg (mul_nonneg hH ?_) hd.le
      exact_mod_cast (by omega : (0 : Int) ≤ x - t)
    · rw [div_le_iff₀ hd]
      calc H * ((x - t : Int) : ℚ) ≤ H * ((M - t : Int) : ℚ) :=
            mul_le_mul_of_nonneg_left
              (by exact_mod_cast sub_le_sub_right hxM t) hH
        _ = H * ((M - t : Int) : ℚ) := rfl
  · rw [if_neg hx]
    exact ⟨le_refl 0, hH⟩

/-- Conversion `pwm_to_range_dz` written as a single band term. -/
theorem pwm_to_range_dz_formula (c : RC_Channel) (dz : Nat) :
    pwm_to_range_dz c dz =
      if range_radio_trim_low c dz < range_r_in c then
        (c.high_in : ℚ) *
            ((range_r_in c - range_radio_trim_low c dz : Int) : ℚ) /
          ((c.radio_max - range_radio_trim_low c dz : Int) : ℚ)
      else 0 := rfl

/-- The effective RANGE input for a channel whose `radio_in` lies inside a
well-ordered calibration: the raw value when not reversed, the mirrored
value when reversed; in both cases inside `[radio_min, radio_max]`. -/
theorem range_r_in_of_mem (c : RC_Channel) (hmin_lb : -32768 ≤ c.radio_min)
    (hmax_ub : c.radio_max < 32768) (hle : c.radio_min ≤ c.radio_max)
    (hin_lo : c.radio_min ≤ (c.radio_in : Int))
    (hin_hi : (c.radio_in : Int) ≤ c.radio_max) :
    (c.reversed = false → range_r_in c = (c.radio_in : Int)) ∧
    (c.reversed = true →
      range_r_in c = c.radio_max - ((c.radio_in : Int) - c.radio_min)) := by
  have hcast : toInt16 (c.radio_in : Int) = (c.radio_in : Int) :=
    toInt16_eq_self (by omega) (by omega)
  have hcon : constrain_int16 (toInt16 (c.radio_in : Int)) c.radio_min
      c.radio_max = (c.radio_in : Int) := by
    rw [hcast]
    exact constrain_int16_of_mem hin_lo hin_hi
  constructor
  · intro hrev
    unfold range_r_in
    rw [hcon, hrev]
    simp
  · intro hrev
    unfold range_r_in
    rw [hcon, hrev]
    simp only [if_pos]
    exact toInt16_eq_self (by omega) (by omega)

/-- C6: for a calibration with `radio_min < radio_max` (within `int16_t`
range) and PWM inputs `p1 ≤ p2` in `[radio_min, radio_max]`, the RANGE
conversion is monotone non-decreasing in the input when the channel is not
reversed, non-increasing when reversed, and its output always lies in
`[0, high_in]`. -/
theorem pwm_to_range_dz_monotone_bounded (c : RC_Channel) (dz : Nat)
    (p1 p2 : Nat) (hmin_lb : -32768 ≤ c.radio_min)
    (hmax_ub : c.radio_max < 32768) (hlt : c.radio_min < c.radio_max)
    (h1lo : c.radio_min ≤ (p1 : Int)) (h12 : p1 ≤ p2)
    (h2hi : (p2 : Int) ≤ c.radio_max) :
    (c.reversed = false →
      pwm_to_range_dz { c with radio_in := p1 } dz ≤
        pwm_to_range_dz { c with radio_in := p2 } dz) ∧
    (c.reversed = true →
      pwm_to_range_dz { c with radio_in := p2 } dz ≤
        pwm_to_range_dz { c with radio_in := p1 } dz) ∧
    0 ≤ pwm_to_range_dz { c with radio_in := p1 } dz ∧
    pwm_to_range_dz { c with radio_in := p1 } dz ≤ (c.high_in : ℚ) := by
  have h12' : (p1 : Int) ≤ (p2 : Int) := by exact_mod_cast h12
  have h1hi : (p1 : Int) ≤ c.radio_max := le_trans h12' h2hi
  have h2lo : c.radio_min ≤ (p2 : Int) := le_trans h1lo h12'
  have hH : (0 : ℚ) ≤ (c.high_in : ℚ) := by positivity
  have hr1 := range_r_in_of_mem { c with radio_in := p1 } hmin_lb hmax_ub
    hlt.le h1lo h1hi
  have hr2 := range_r_in_of_mem { c with radio_in := p2 } hmin_lb hmax_ub
    hlt.le h2lo h2hi
  refine ⟨?_, ?_, ?_⟩
  · intro hrev
    rw [pwm_to_range_dz_formula, pwm_to_range_dz_formula,
      hr1.1 hrev, hr2.1 hrev]
    exact band_mono (c.high_in : ℚ) hH (range_radio_trim_low c dz)
      c.radio_max (p1 : Int) (p2 : Int) h12' h2hi
  · intro hrev
    rw [pwm_to_range_dz_formula, pwm_to_range_dz_formula,
      hr1.2 hrev, hr2.2 hrev]
    exact band_mono (c.high_in : ℚ) hH (range_radio_trim_low c dz)
      c.radio_max (c.radio_max - ((p2 : Int) - c.radio_min))
      (c.radio_max - ((p1 : Int) - c.radio_min)) (by omega) (by omega)
  · rcases Bool.eq_false_or_eq_true c.reversed with hrev | hrev
    · rw [pwm_to_range_dz_formula, hr1.2 hrev]
      exact band_bounds (c.high_in : ℚ) hH (range_radio_trim_low c dz)
        c.radio_max (c.radio_max - ((p1 : Int) - c.radio_min)) (by omega)
    · rw [pwm_to_range_dz_formula, hr1.1 hrev]
      exact band_bounds (c.high_in : ℚ) hH (range_radio_trim_low c dz)
        c.radio_max (p1 : Int) h1hi

/-- Witness for C6 at the default calibration with inputs 1500 ≤ 1900. -/
theorem pwm_to_range_dz_monotone_bounded_witness :
    ((sample_channel .DO_NOTHING 0).reversed = false →
      pwm_to_range_dz { sample_channel .DO_NOTHING 0 with radio_in := 1500 } 0 ≤
        pwm_to_range_dz { sample_channel .DO_NOTHING 0 with radio_in := 1900 } 0) ∧
    ((sample_channel .DO_NOTHING 0).reversed = true →
      pwm_to_range_dz { sample_channel .DO_NOTHING 0 with radio_in := 1900 } 0 ≤
        pwm_to_range_dz { sample_channel .DO_NOTHING 0 with radio_in := 1500 } 0) ∧
    0 ≤ pwm_to_range_dz { sample_channel .DO_NOTHING 0 with radio_in := 1500 } 0 ∧
    pwm_to_range_dz { sample_channel .DO_NOTHING 0 with radio_in := 1500 } 0 ≤
      ((sample_channel .DO_NOTHING 0).high_in : ℚ) :=
  pwm_to_range_dz_monotone_bounded (sample_channel .DO_NOTHING 0) 0 1500 1900
    (by decide) (by decide) (by decide) (by decide) (by decide) (by decide)

/-- A channel with inverted calibration (`radio_max = 1100 ≤ 1900 =
radio_min`), trim 1500, no deadzone, `high_in` 4500, reading 1000. -/
def c4_channel : RC_Channel :=
  { ch_in := 0, radio_min := 1900, radio_trim := 1500, radio_max := 1100,
    reversed := false, dead_zone := 0, high_in := 4500, radio_in := 1000,
    option := .DO_NOTHING, override_value := 0, last_override_time := 0,
    switch_state := fresh_switch_state }

/-- Counterexample to C4: with `radio_max ≤ radio_min` the ANGLE conversion
does *not* return the neutral value 0 — on `c4_channel` it takes the
high-side branch and evaluates a division with a sign-inverted (negative)
denominator, returning −4500. -/
theorem pwm_to_angle_inverted_nonzero_counterexample :
    c4_channel.radio_max ≤ c4_channel.radio_min ∧
    pwm_to_angle_dz_trim c4_channel 0 1500 = -4500 ∧
    pwm_to_angle_dz_trim_divisor c4_channel 0 1500 = some (-400) := by
  refine ⟨by decide, ?_, by decide⟩
  have hr : angle_r_in c4_channel = 1900 := by decide
  have hth : angle_radio_trim_high 1500 0 = 1500 := by decide
  have htl : angle_radio_trim_low 1500 0 = 1500 := by decide
  unfold pwm_to_angle_dz_trim
  rw [hr, hth, htl]
  norm_num [c4_channel]

/-- C4 (amended): with `radio_max ≤ radio_min` (fields in `int16_t` range,
`radio_min + dead_zone` not overflowing), `pwm_to_range_dz` returns the
neutral value 0 for every `radio_in` and evaluates no division at all;
`pwm_to_angle_dz_trim` never evaluates a division by a *zero* denominator
(each branch's guard makes its denominator nonzero, though the denominator
can be negative, see the counterexample); and whenever the clamped input
equals a deadzone edge both conversions return 0 without dividing. -/
theorem conversions_inverted_calibration :
    (∀ (c : RC_Channel) (dz : Nat),
      -32768 ≤ c.radio_min → c.radio_min < 32768 →
      -32768 ≤ c.radio_max → c.radio_max < 32768 →
      c.radio_min + (dz : Int) < 32768 →
      c.radio_max ≤ c.radio_min →
      pwm_to_range_dz c dz = 0 ∧ pwm_to_range_dz_divisor c dz = none) ∧
    (∀ (c : RC_Channel) (dz trim : Nat) (d : Int),
      pwm_to_angle_dz_trim_divisor c dz trim = some d → d ≠ 0) ∧
    (∀ (c : RC_Channel) (dz : Nat),
      range_r_in c = range_radio_trim_low c dz →
      pwm_to_range_dz c dz = 0 ∧ pwm_to_range_dz_divisor c dz = none) ∧
    (∀ (c : RC_Channel) (dz trim : Nat),
      (trim : Int) + dz < 32768 → (dz : Int) ≤ 32768 →
      (angle_r_in c = angle_radio_trim_high trim dz ∨
        angle_r_in c = angle_radio_trim_low trim dz) →
      pwm_to_angle_dz_trim c dz trim = 0 ∧
      pwm_to_angle_dz_trim_divisor c dz trim = none) := by
  refine ⟨?_, ?_, ?_, ?_⟩
  · intro c dz h1 h2 h3 h4 h5 hmm
    have ht : range_radio_trim_low c dz = c.radio_min + (dz : Int) :=
      toInt16_eq_self (by omega) h5
    have hmin : toInt16 c.radio_min = c.radio_min := toInt16_eq_self h1 h2
    have hmax : toInt16 c.radio_max = c.radio_max := toInt16_eq_self h3 h4
    have hr : range_r_in c = c.radio_min ∨ range_r_in c = c.radio_max := by
      unfold range_r_in
      dsimp only
      rcases constrain_int16_inverted (a := toInt16 (c.radio_in : Int)) hmm
        with h | h
      · rw [h]
        split
        · right
          rw [show c.radio_max - (c.radio_min - c.radio_min) = c.radio_max by
            omega]
          exact hmax
        · exact Or.inl rfl
      · rw [h]
        split
        · left
          rw [show c.radio_max - (c.radio_max - c.radio_min) = c.radio_min by
            omega]
          exact hmin
        · exact Or.inr rfl
    have hnot : ¬range_radio_trim_low c dz < range_r_in c := by
      rcases hr with h | h <;> rw [h, ht] <;> omega
    exact ⟨by rw [pwm_to_range_dz_formula, if_neg hnot],
      by unfold pwm_to_range_dz_divisor; rw [if_neg hnot]⟩
  · intro c dz trim d h
    unfold pwm_to_angle_dz_trim_divisor at h
    dsimp only at h
    split at h
    · rename_i hc
      cases h
      omega
    · split at h
      · rename_i hc
        cases h
        omega
      · exact absurd h (by simp)
  · intro c dz heq
    have hnot : ¬range_radio_trim_low c dz < range_r_in c := by omega
    exact ⟨by rw [pwm_to_range_dz_formula, if_neg hnot],
      by unfold pwm_to_range_dz_divisor; rw [if_neg hnot]⟩
  · intro c dz trim hw hdz hedge
    have hth : angle_radio_trim_high trim dz = (trim : Int) + dz :=
      toInt16_eq_self (by omega) hw
    have htl : angle_radio_trim_low trim dz = (trim : Int) - dz :=
      toInt16_eq_self (by omega) (by omega)
    have hnot1 : ¬(angle_r_in c > angle_radio_trim_high trim dz ∧
        c.radio_max ≠ angle_radio_trim_high trim dz) := by
      rintro ⟨ha, -⟩
      rcases hedge with h | h <;> omega
    have hnot2 : ¬(angle_r_in c < angle_radio_trim_low trim dz ∧
        angle_radio_trim_low trim dz ≠ c.radio_min) := by
      rintro ⟨ha, -⟩
      rcases hedge with h | h <;> omega
    constructor
    · unfold pwm_to_angle_dz_trim
      dsimp only
      rw [if_neg hnot1, if_neg hnot2]
    · unfold pwm_to_angle_dz_trim_divisor
      dsimp only
      rw [if_neg hnot1, if_neg hnot2]

/-- Witness for the amended C4: the inverted `c4_channel` gives a neutral
RANGE output with no division; its ANGLE divisor −400 is nonzero; and a
clamped input equal to the deadzone edge gives a neutral ANGLE output. -/
theorem conversions_inverted_calibration_witness :
    (pwm_to_range_dz c4_channel 0 = 0 ∧
      pwm_to_range_dz_divisor c4_channel 0 = none) ∧
    (-400 : Int) ≠ 0 ∧
    (pwm_to_angle_dz_trim (sample_channel .DO_NOTHING 1500) 0 1500 = 0 ∧
      pwm_to_angle_dz_trim_divisor (sample_channel .DO_NOTHING 1500) 0 1500 =
        none) :=
  ⟨conversions_inverted_calibration.1 c4_channel 0 (by decide) (by decide)
      (by decide) (by decide) (by decide) (by decide),
    conversions_inverted_calibration.2.1 c4_channel 0 1500 (-400) (by decide),
    conversions_inverted_calibration.2.2.2 (sample_channel .DO_NOTHING 1500)
      0 1500 (by decide) (by decide) (Or.inl (by decide))⟩

end RCChannel
